import Mathlib

/-!
Shallow embedding of the Tuso_SD saga system (orchestrator, inventory
participant, payment participant) translated from the JavaScript sources:
services/pedidos/src/app.js, services/inventario/src/app.js and the pagos
service. Database tables are modelled as lists of rows, SQL statements as the
corresponding list transformations, timestamps as integer milliseconds, and
awaited statements as sequential state passing in which a raised exception
short-circuits the rest of the handler.
-/

namespace Tuso

/-! ## Inventory participant (services/inventario/src/app.js) -/

/-- Status column of reservas_temporales; the schema default is ACTIVA. -/
inductive ResEstado
  | ACTIVA
  | LIBERADA
  | EXPIRADA
deriving DecidableEq

/-- Row of the productos table (the columns the saga core touches). -/
structure Producto where
  id : Int
  stock_disponible : Int
deriving DecidableEq

/-- Row of the reservas_temporales table. -/
structure Reserva where
  saga_id : String
  producto_id : Int
  cantidad_reservada : Int
  expira_en : Int
  estado : ResEstado
deriving DecidableEq

/-- The inventory database. -/
structure InvState where
  productos : List Producto
  reservas_temporales : List Reserva
deriving DecidableEq

/-- Reservation hold window: 10 * 60 * 1000 ms (app.js line 102). -/
def holdWindowMs : Int := 10 * 60 * 1000

/-- Window used by the sweep restore query: INTERVAL 1 minute (line 201). -/
def restoreWindowMs : Int := 60 * 1000

/-- First row of productos matching the id, as SELECT ... WHERE id = $1. -/
def findProducto (inv : InvState) (productoId : Int) : Option Producto :=
  inv.productos.find? (fun p => decide (p.id = productoId))

/-- Available stock of a product, None when the row does not exist. -/
def stockOf (inv : InvState) (productoId : Int) : Option Int :=
  (findProducto inv productoId).map (fun p => p.stock_disponible)

/-- Sum of the quantities of the ACTIVA reservations of a product. -/
def activaSum (inv : InvState) (productoId : Int) : Int :=
  ((inv.reservas_temporales.filter
      (fun r => decide (r.producto_id = productoId ∧ r.estado = ResEstado.ACTIVA))).map
    (fun r => r.cantidad_reservada)).sum

/-- reservarStock (app.js lines 69-115): inside one transaction the product
row is locked and read; a missing product raises Producto no encontrado
(rolled back, state unchanged); insufficient stock rolls back and returns
false; otherwise the stock is decremented and an ACTIVA reservation expiring
at now + 10 minutes is inserted, and the call returns true. -/
def reservarStock (inv : InvState) (sagaId : String) (productoId : Int)
    (cantidad : Int) (now : Int) : Except String (Bool × InvState) :=
  match findProducto inv productoId with
  | none => Except.error "Producto no encontrado"
  | some p =>
    if p.stock_disponible < cantidad then
      Except.ok (false, inv)
    else
      Except.ok (true,
        { productos := inv.productos.map (fun q =>
            if q.id = productoId then
              { id := q.id, stock_disponible := q.stock_disponible - cantidad }
            else q),
          reservas_temporales := inv.reservas_temporales ++
            [{ saga_id := sagaId, producto_id := productoId,
               cantidad_reservada := cantidad, expira_en := now + holdWindowMs,
               estado := ResEstado.ACTIVA }] })

/-- liberarStock (app.js lines 117-153): the first reservation of the saga in
status ACTIVA is looked up; when none exists the transaction commits with no
mutation; otherwise its quantity is added back to the product stock and every
reservation of the saga is set to LIBERADA (the UPDATE filters on saga_id
only). -/
def liberarStock (inv : InvState) (sagaId : String) : InvState :=
  match inv.reservas_temporales.find?
      (fun r => decide (r.saga_id = sagaId ∧ r.estado = ResEstado.ACTIVA)) with
  | none => inv
  | some reserva =>
    { productos := inv.productos.map (fun q =>
        if q.id = reserva.producto_id then
          { id := q.id,
            stock_disponible := q.stock_disponible + reserva.cantidad_reservada }
        else q),
      reservas_temporales := inv.reservas_temporales.map (fun r =>
        if r.saga_id = sagaId then
          { r with estado := ResEstado.LIBERADA }
        else r) }

/-- The background sweep body (app.js lines 186-209). Step one sets every
ACTIVA reservation past its expiry to EXPIRADA and reports the number of rows
changed. Step two runs only when that count is positive and adds back, per
product, the quantity of one joined reservas_temporales row that is EXPIRADA
and whose expiry lies within the last minute; UPDATE ... FROM uses a single
unspecified candidate row per target row, modelled as the first match. -/
def limpiarReservasExpiradas (inv : InvState) (now : Int) : InvState :=
  let marcadas := inv.reservas_temporales.map (fun r =>
    if r.expira_en < now ∧ r.estado = ResEstado.ACTIVA then
      { r with estado := ResEstado.EXPIRADA }
    else r)
  let rowCount := (inv.reservas_temporales.filter
    (fun r => decide (r.expira_en < now ∧ r.estado = ResEstado.ACTIVA))).length
  if rowCount = 0 then
    { productos := inv.productos, reservas_temporales := marcadas }
  else
    { productos := inv.productos.map (fun p =>
        match marcadas.find? (fun r => decide (r.producto_id = p.id ∧
            r.estado = ResEstado.EXPIRADA ∧ now - restoreWindowMs < r.expira_en)) with
        | some r =>
          { id := p.id, stock_disponible := p.stock_disponible + r.cantidad_reservada }
        | none => p),
      reservas_temporales := marcadas }

/-! ## Bus message shapes -/

/-- Fields that occur in the JSON payloads exchanged on the bus; a field that
the JavaScript object does not carry is None. -/
structure Payload where
  productoId : Option Int
  cantidad : Option Int
  pedidoId : Option String
  metodoPago : Option String
  razon : Option String
  errorMsg : Option String
deriving DecidableEq

/-- Payload of the compensation commands: the object with razon only. -/
def razonPayload (razon : String) : Payload :=
  { productoId := none, cantidad := none, pedidoId := none,
    metodoPago := none, razon := some razon, errorMsg := none }

/-- Payload of the catch branches: the object with error only. -/
def errPayload (msg : String) : Payload :=
  { productoId := none, cantidad := none, pedidoId := none,
    metodoPago := none, razon := none, errorMsg := some msg }

/-- Command message published on the saga_events queue. -/
structure Command where
  sagaId : String
  evento : String
  payload : Payload
deriving DecidableEq

/-- Response message published on the pedidos_responses queue. -/
structure Response where
  sagaId : String
  evento : String
  success : Bool
  payload : Payload
  servicio : String
deriving DecidableEq

/-! ## Payment participant (services/pagos/src/app.js) -/

/-- Status column of transacciones. -/
inductive TransEstado
  | PENDIENTE
  | APROBADA
  | RECHAZADA
  | REVERTIDA
deriving DecidableEq

/-- Row of the transacciones table. -/
structure Transaccion where
  transaction_id : String
  saga_id : String
  monto : Int
  metodo_pago : String
  estado : TransEstado
deriving DecidableEq

/-- The pagos database. -/
structure PagState where
  transacciones : List Transaccion
deriving DecidableEq

/-- Allow-list of payment methods (pagos app.js line 75). -/
def metodosValidos : List String :=
  ["tarjeta_credito", "tarjeta_debito", "pse", "efectivo"]

/-- Simulated price lookup (pagos app.js lines 113-123). -/
def obtenerPrecioProducto (productoId : Int) : Int :=
  if productoId = 1 then 450000
  else if productoId = 2 then 180000
  else if productoId = 3 then 85000
  else if productoId = 4 then 890000
  else 100000

/-- procesarPago (pagos app.js lines 69-111): a payload method outside the
allow-list (or absent) returns false with no insert; otherwise one
transacciones row is inserted with status APROBADA when the simulated outcome
approves and RECHAZADA otherwise, and that outcome is returned. The simulated
Math.random draw is the parameter exitoso and the generated uuid is txId. -/
def procesarPago (pag : PagState) (sagaId : String) (payload : Payload)
    (exitoso : Bool) (txId : String) : Bool × PagState :=
  match payload.metodoPago with
  | none => (false, pag)
  | some metodoPago =>
    if metodosValidos.contains metodoPago then
      let precio := obtenerPrecioProducto (payload.productoId.getD 0)
      let montoTotal := precio * (payload.cantidad.getD 0)
      (exitoso,
        { transacciones := pag.transacciones ++
            [{ transaction_id := txId, saga_id := sagaId, monto := montoTotal,
               metodo_pago := metodoPago,
               estado := if exitoso then TransEstado.APROBADA else TransEstado.RECHAZADA }] })
    else (false, pag)

/-- compensarPago (pagos app.js lines 125-153): the first APROBADA transaction
of the saga, if any, is moved to REVERTIDA; absence is a no-op. -/
def compensarPago (pag : PagState) (sagaId : String) : PagState :=
  match pag.transacciones.find?
      (fun t => decide (t.saga_id = sagaId ∧ t.estado = TransEstado.APROBADA)) with
  | none => pag
  | some t =>
    { transacciones := pag.transacciones.map (fun u =>
        if u.transaction_id = t.transaction_id then
          { u with estado := TransEstado.REVERTIDA }
        else u) }

/-- Saga-event consumer of pagos (lines 37-67): PROCESAR_PAGO runs
procesarPago and answers PAGO_PROCESADO with its outcome; COMPENSAR_PAGO runs
compensarPago and answers nothing; any other event is acknowledged and
dropped. -/
def procesarEventoPago (pag : PagState) (cmd : Command) (exitoso : Bool)
    (txId : String) : PagState × List Response :=
  if cmd.evento = "PROCESAR_PAGO" then
    let r := procesarPago pag cmd.sagaId cmd.payload exitoso txId
    (r.2, [{ sagaId := cmd.sagaId, evento := "PAGO_PROCESADO", success := r.1,
             payload := cmd.payload, servicio := "pagos" }])
  else if cmd.evento = "COMPENSAR_PAGO" then
    (compensarPago pag cmd.sagaId, [])
  else (pag, [])

/-- Saga-event consumer of inventario (lines 37-67). RESERVAR_INVENTARIO runs
reservarStock and answers INVENTARIO_RESERVADO with its outcome;
LIBERAR_INVENTARIO runs liberarStock and answers nothing; other events are
acknowledged and dropped. The catch at lines 63-66 answers any raised error,
for either event, with evento INVENTARIO_RESERVADO and success false; the
parameter dbFault injects such a raised error message. -/
def procesarEventoInventario (inv : InvState) (cmd : Command) (now : Int)
    (dbFault : Option String) : InvState × List Response :=
  match dbFault with
  | some msg =>
    (inv, [{ sagaId := cmd.sagaId, evento := "INVENTARIO_RESERVADO",
             success := false, payload := errPayload msg, servicio := "inventario" }])
  | none =>
    if cmd.evento = "RESERVAR_INVENTARIO" then
      match reservarStock inv cmd.sagaId (cmd.payload.productoId.getD 0)
          (cmd.payload.cantidad.getD 0) now with
      | Except.ok r =>
        (r.2, [{ sagaId := cmd.sagaId, evento := "INVENTARIO_RESERVADO",
                 success := r.1, payload := cmd.payload, servicio := "inventario" }])
      | Except.error msg =>
        (inv, [{ sagaId := cmd.sagaId, evento := "INVENTARIO_RESERVADO",
                 success := false, payload := errPayload msg, servicio := "inventario" }])
    else if cmd.evento = "LIBERAR_INVENTARIO" then
      (liberarStock inv cmd.sagaId, [])
    else (inv, [])

/-! ## Saga orchestrator (services/pedidos/src/app.js)

Each awaited database or bus statement is one fallible primitive. A handler
invocation threads the orchestrator database together with a list of
pending fault injections: each primitive consumes the head of the list and
raises when it is true, mirroring a store or bus call that throws. The empty
list is the fault-free run. A raised exception short-circuits the remaining
statements of the handler, exactly as in the JavaScript, and the mutations
already performed persist (there is no transaction around the handler). -/

/-- The saga status vocabulary (app.js lines 57-64). -/
inductive SagaState
  | INICIADA
  | INVENTARIO_RESERVADO
  | PAGO_PROCESADO
  | COMPLETADA
  | CANCELADA
  | COMPENSANDO
deriving DecidableEq

/-- Row of the pedidos table (columns the saga core touches). -/
structure Pedido where
  id : String
  saga_id : String
  usuario_id : Int
  producto_id : Int
  cantidad : Int
  estado : SagaState
deriving DecidableEq

/-- Row of the append-only saga_estados table. -/
structure SagaEstado where
  saga_id : String
  paso : String
  estado : String
deriving DecidableEq

/-- The orchestrator database plus its published commands; trace is a ghost
record of every estado value written to a pedidos row, in write order, used
to state the monotonicity claims. -/
structure OrchCtx where
  pedidos : List Pedido
  saga_estados : List SagaEstado
  outbox : List Command
  trace : List (String × SagaState)
deriving DecidableEq

/-- INSERT INTO saga_estados (updateSagaState, app.js lines 200-205). -/
def insSagaEstado (sagaId paso estado : String) (c : OrchCtx) : OrchCtx :=
  { c with saga_estados := c.saga_estados ++
      [{ saga_id := sagaId, paso := paso, estado := estado }] }

/-- UPDATE pedidos SET estado (updatePedidoState, app.js lines 208-213). -/
def setPedidoEstado (sagaId : String) (estado : SagaState) (c : OrchCtx) : OrchCtx :=
  { c with
    pedidos := c.pedidos.map (fun p =>
      if p.saga_id = sagaId then { p with estado := estado } else p),
    trace := c.trace ++ [(sagaId, estado)] }

/-- sendToQueue on saga_events (publishSagaEvent, app.js lines 135-145). -/
def pushEvento (sagaId evento : String) (payload : Payload) (c : OrchCtx) : OrchCtx :=
  { c with outbox := c.outbox ++
      [{ sagaId := sagaId, evento := evento, payload := payload }] }

/-- A handler state: the orchestrator database and the pending faults. -/
abbrev FState := OrchCtx × List Bool

/-- One awaited primitive: consumes the next fault flag; a true flag raises
before the mutation is applied. -/
def primOp (f : OrchCtx → OrchCtx) (st : FState) : Except FState FState :=
  match st.2 with
  | [] => Except.ok (f st.1, [])
  | b :: rest => if b then Except.error (st.1, rest) else Except.ok (f st.1, rest)

/-- A sequence of awaited primitives; an exception short-circuits the rest. -/
def runOps : List (OrchCtx → OrchCtx) → FState → Except FState FState
  | [], st => Except.ok st
  | f :: rest, st =>
    match primOp f st with
    | Except.error e => Except.error e
    | Except.ok st1 => runOps rest st1

/-- The five mutators of compensateSaga (app.js lines 216-227) in statement
order. -/
def compensateOps (sagaId razon : String) : List (OrchCtx → OrchCtx) :=
  [setPedidoEstado sagaId SagaState.COMPENSANDO,
   pushEvento sagaId "COMPENSAR_PAGO" (razonPayload razon),
   pushEvento sagaId "LIBERAR_INVENTARIO" (razonPayload razon),
   setPedidoEstado sagaId SagaState.CANCELADA,
   insSagaEstado sagaId "COMPENSACION" "COMPLETADO"]

/-- compensateSaga (app.js lines 216-227). -/
def compensateSaga (sagaId razon : String) (st : FState) : Except FState FState :=
  runOps (compensateOps sagaId razon) st

/-- The switch of processSagaResponse (app.js lines 165-192). -/
def sagaBody (ev : Response) (st : FState) : Except FState FState :=
  if ev.evento = "INVENTARIO_RESERVADO" then
    if ev.success then
      runOps [insSagaEstado ev.sagaId "RESERVAR_INVENTARIO" "COMPLETADO",
              setPedidoEstado ev.sagaId SagaState.INVENTARIO_RESERVADO,
              pushEvento ev.sagaId "PROCESAR_PAGO" ev.payload] st
    else compensateSaga ev.sagaId "INVENTARIO_NO_DISPONIBLE" st
  else if ev.evento = "PAGO_PROCESADO" then
    if ev.success then
      runOps [insSagaEstado ev.sagaId "PROCESAR_PAGO" "COMPLETADO",
              setPedidoEstado ev.sagaId SagaState.PAGO_PROCESADO,
              pushEvento ev.sagaId "CONFIRMAR_PEDIDO" ev.payload] st
    else compensateSaga ev.sagaId "PAGO_RECHAZADO" st
  else if ev.evento = "PEDIDO_CONFIRMADO" then
    runOps [insSagaEstado ev.sagaId "CONFIRMAR_PEDIDO" "COMPLETADO",
            setPedidoEstado ev.sagaId SagaState.COMPLETADA] st
  else Except.ok st

/-- processSagaResponse (app.js lines 159-197): the switch body runs inside
try; the catch triggers compensateSaga with reason ERROR_INTERNO. An
exception raised by that compensation itself is outside the try and
propagates, yielding Except.error. -/
def processSagaResponse (ev : Response) (st : FState) : Except FState FState :=
  match sagaBody ev st with
  | Except.ok st1 => Except.ok st1
  | Except.error st1 => compensateSaga ev.sagaId "ERROR_INTERNO" st1

/-- Fault-free handling of one response, as done by the pedidos_responses
consumer when no store or bus call throws. -/
def runResponse (ev : Response) (c : OrchCtx) : OrchCtx :=
  match processSagaResponse ev (c, []) with
  | Except.ok st => st.1
  | Except.error st => st.1

/-- Fault-free handling of a sequence of delivered responses. -/
def runResponses (evs : List Response) (c : OrchCtx) : OrchCtx :=
  evs.foldl (fun c ev => runResponse ev c) c

/-- Whether a handler invocation completed without propagating an exception. -/
def isOkE (e : Except FState FState) : Bool :=
  match e with
  | Except.ok _ => true
  | Except.error _ => false

/-- Final orchestrator state of a handler invocation, whether or not the
invocation propagated. -/
def stateOfE (e : Except FState FState) : OrchCtx :=
  match e with
  | Except.ok st => st.1
  | Except.error st => st.1

/-- Result of the POST /pedidos route. -/
structure CrearPedidoResult where
  status : Nat
  pedidoId : Option String
  sagaId : Option String
  ctx : OrchCtx
deriving DecidableEq

/-- POST /pedidos (app.js lines 67-106). The route performs no explicit
validation: it inserts the pedidos row directly. The columns usuario_id,
producto_id and cantidad are NOT NULL in init-db.sql, so an absent value
makes the INSERT throw, the catch answers 500 and nothing was written; the
pedidos table has no payment-method column, so an absent metodoPago passes
through. On success the row is created in estado INICIADA, the
CREAR_PEDIDO/COMPLETADO step is appended, RESERVAR_INVENTARIO is published
with productoId, cantidad, pedidoId and metodoPago, and 201 is returned with
the generated ids. -/
def createPedido (c : OrchCtx) (usuarioId productoId cantidad : Option Int)
    (metodoPago : Option String) (pedidoId sagaId : String) : CrearPedidoResult :=
  match usuarioId, productoId, cantidad with
  | some uid, some pid, some cant =>
    let c1 : OrchCtx :=
      { c with
        pedidos := c.pedidos ++
          [{ id := pedidoId, saga_id := sagaId, usuario_id := uid,
             producto_id := pid, cantidad := cant, estado := SagaState.INICIADA }],
        trace := c.trace ++ [(sagaId, SagaState.INICIADA)] }
    let c2 := insSagaEstado sagaId "CREAR_PEDIDO" "COMPLETADO" c1
    let c3 := pushEvento sagaId "RESERVAR_INVENTARIO"
      { productoId := some pid, cantidad := some cant, pedidoId := some pedidoId,
        metodoPago := metodoPago, razon := none, errorMsg := none } c2
    { status := 201, pedidoId := some pedidoId, sagaId := some sagaId, ctx := c3 }
  | _, _, _ => { status := 500, pedidoId := none, sagaId := none, ctx := c }

/-- The sequence of estado values written to the pedidos row of one saga,
starting with the INICIADA written at creation. -/
def statusTrace (c : OrchCtx) (s : String) : List SagaState :=
  c.trace.filterMap (fun pr => if pr.1 = s then some pr.2 else none)

/-- Current estado of the pedido of a saga. -/
def pedidoEstado (c : OrchCtx) (s : String) : Option SagaState :=
  (c.pedidos.find? (fun p => decide (p.saga_id = s))).map (fun p => p.estado)

/-- The empty orchestrator database. -/
def emptyCtx : OrchCtx :=
  { pedidos := [], saga_estados := [], outbox := [], trace := [] }

/-! ## The composed system

The orchestrator and the two participants connected by the two durable
queues. A command published by the orchestrator lands on saga_events and is
handled by the participant whose consumer recognises its evento; both
participant consumers acknowledge and drop every other event (inventario
app.js lines 37-43, pagos app.js lines 37-43). Responses land on
pedidos_responses and are handled by the orchestrator consumer. respLog is a
ghost record of every response ever enqueued. -/

structure SysState where
  orch : OrchCtx
  inv : InvState
  pag : PagState
  sagaQ : List Command
  respQ : List Response
  respLog : List Response
deriving DecidableEq

/-- Deliver one pending message: commands first, then responses. The
parameters fix the simulated payment outcome, the clock and the generated
transaction id for the step. -/
def sysStep (exitoso : Bool) (now : Int) (txId : String) (s : SysState) : SysState :=
  match s.sagaQ with
  | cmd :: rest =>
    if cmd.evento = "RESERVAR_INVENTARIO" ∨ cmd.evento = "LIBERAR_INVENTARIO" then
      let r := procesarEventoInventario s.inv cmd now none
      { s with
        sagaQ := rest,
        inv := r.fst,
        respQ := s.respQ ++ r.snd,
        respLog := s.respLog ++ r.snd }
    else if cmd.evento = "PROCESAR_PAGO" ∨ cmd.evento = "COMPENSAR_PAGO" then
      let r := procesarEventoPago s.pag cmd exitoso txId
      { s with
        sagaQ := rest,
        pag := r.fst,
        respQ := s.respQ ++ r.snd,
        respLog := s.respLog ++ r.snd }
    else
      { s with sagaQ := rest }
  | [] =>
    match s.respQ with
    | ev :: rest =>
      let c2 := runResponse ev s.orch
      { s with
        respQ := rest,
        orch := c2,
        sagaQ := c2.outbox.drop s.orch.outbox.length }
    | [] => s

/-- Iterate sysStep a fixed number of times; a quiescent state is fixed. -/
def runSys (exitoso : Bool) (now : Int) (txId : String) : Nat → SysState → SysState
  | 0, s => s
  | Nat.succ n, s => runSys exitoso now txId n (sysStep exitoso now txId s)

/-- The composed system right after POST /pedidos for product 1 (stock 10 in
init-db.sql), quantity 2, method tarjeta_credito: the accepted request has
published RESERVAR_INVENTARIO, which is pending on saga_events. -/
def happyInit : SysState :=
  let r := createPedido emptyCtx (some 1) (some 1) (some 2)
    (some "tarjeta_credito") "p1" "s1"
  { orch := r.ctx,
    inv := { productos := [{ id := 1, stock_disponible := 10 }],
             reservas_temporales := [] },
    pag := { transacciones := [] },
    sagaQ := r.ctx.outbox,
    respQ := [],
    respLog := [] }

/-! ## Spec-side vocabulary for the monotonicity claim

These definitions follow the words of the specification, not the source: the
two admissible status paths and the prefix check. -/

/-- Forward path of the specification state machine. -/
def forwardPath : List SagaState :=
  [SagaState.INICIADA, SagaState.INVENTARIO_RESERVADO,
   SagaState.PAGO_PROCESADO, SagaState.COMPLETADA]

/-- Compensation path entered from INICIADA. -/
def compPath1 : List SagaState :=
  [SagaState.INICIADA, SagaState.COMPENSANDO, SagaState.CANCELADA]

/-- Compensation path entered from INVENTARIO_RESERVADO. -/
def compPath2 : List SagaState :=
  [SagaState.INICIADA, SagaState.INVENTARIO_RESERVADO,
   SagaState.COMPENSANDO, SagaState.CANCELADA]

/-- Compensation path entered from PAGO_PROCESADO. -/
def compPath3 : List SagaState :=
  [SagaState.INICIADA, SagaState.INVENTARIO_RESERVADO,
   SagaState.PAGO_PROCESADO, SagaState.COMPENSANDO, SagaState.CANCELADA]

/-- Boolean prefix test on status sequences. -/
def isPre : List SagaState → List SagaState → Bool
  | [], _ => true
  | _ :: _, [] => false
  | a :: l, b :: m => decide (a = b) && isPre l m

/-- A status sequence admitted by the specification: a prefix of the forward
path or of a forward prefix followed by COMPENSANDO and CANCELADA. -/
def validStatusSeq (l : List SagaState) : Bool :=
  isPre l forwardPath || isPre l compPath1 || isPre l compPath2 || isPre l compPath3

/-- An INVENTARIO_RESERVADO response. -/
def respIR (s : String) (b : Bool) (p : Payload) (svc : String) : Response :=
  { sagaId := s, evento := "INVENTARIO_RESERVADO", success := b,
    payload := p, servicio := svc }

/-- A PAGO_PROCESADO response. -/
def respPP (s : String) (b : Bool) (p : Payload) (svc : String) : Response :=
  { sagaId := s, evento := "PAGO_PROCESADO", success := b,
    payload := p, servicio := svc }

/-- A PEDIDO_CONFIRMADO response. -/
def respPC (s : String) (b : Bool) (p : Payload) (svc : String) : Response :=
  { sagaId := s, evento := "PEDIDO_CONFIRMADO", success := b,
    payload := p, servicio := svc }

/-- Statuses that fault-free handling of one response writes to the pedidos
row of saga s, read off the routing switch. -/
def respDelta (ev : Response) (s : String) : List SagaState :=
  if ev.sagaId = s then
    if ev.evento = "INVENTARIO_RESERVADO" then
      if ev.success then [SagaState.INVENTARIO_RESERVADO]
      else [SagaState.COMPENSANDO, SagaState.CANCELADA]
    else if ev.evento = "PAGO_PROCESADO" then
      if ev.success then [SagaState.PAGO_PROCESADO]
      else [SagaState.COMPENSANDO, SagaState.CANCELADA]
    else if ev.evento = "PEDIDO_CONFIRMADO" then [SagaState.COMPLETADA]
    else []
  else []

/-- Payload with no fields, for responses whose content is irrelevant. -/
def emptyPayload : Payload :=
  { productoId := none, cantidad := none, pedidoId := none,
    metodoPago := none, razon := none, errorMsg := none }

/-- Available stock plus the ACTIVA reservation quantities of a product: the
quantity the conservation invariant says equals initial stock minus net
confirmed sales. -/
def conservationSum (inv : InvState) (productoId : Int) : Int :=
  (stockOf inv productoId).getD 0 + activaSum inv productoId

/-! ## Theorems -/

/-- The composed happy-path run of claim C1 driven to quiescence: product 1
with stock 10, quantity 2, method tarjeta_credito, payment approved. -/
def happyFinal : SysState := runSys true 0 "tx1" 12 happyInit

/-- C1: the happy-path run reaches quiescence with the order stuck in
PAGO_PROCESADO, never COMPLETADA. The orchestrator publishes
CONFIRMAR_PEDIDO, but both participant consumers acknowledge and drop it and
no service ever publishes a PEDIDO_CONFIRMADO response, so the terminal
transition of the routing table is dead code in the composed system. Stock
is decreased by 2 but only through a still ACTIVA reservation. -/
theorem c1_happy_path_never_completes :
    happyFinal.sagaQ = [] ∧ happyFinal.respQ = [] ∧
    sysStep true 0 "tx1" happyFinal = happyFinal ∧
    pedidoEstado happyFinal.orch "s1" = some SagaState.PAGO_PROCESADO ∧
    pedidoEstado happyFinal.orch "s1" ≠ some SagaState.COMPLETADA ∧
    happyFinal.respLog.map (fun r => r.evento) =
      ["INVENTARIO_RESERVADO", "PAGO_PROCESADO"] ∧
    happyFinal.orch.outbox.map (fun c => c.evento) =
      ["RESERVAR_INVENTARIO", "PROCESAR_PAGO", "CONFIRMAR_PEDIDO"] ∧
    stockOf happyFinal.inv 1 = some 8 ∧
    happyFinal.inv.reservas_temporales.map (fun r => r.estado) = [ResEstado.ACTIVA] := by
  decide

/-- Inventory state holding one ACTIVA reservation of quantity 2 made at time
0, hence expiring at 600000, with the stock already decremented from 10
to 8. -/
def c2Inv : InvState :=
  { productos := [{ id := 1, stock_disponible := 8 }],
    reservas_temporales := [{ saga_id := "s1", producto_id := 1,
                              cantidad_reservada := 2, expira_en := 600000,
                              estado := ResEstado.ACTIVA }] }

/-- C2: a sweep that runs two minutes after the expiry (well inside the
five-minute sweep interval) marks the reservation EXPIRADA but does not
restore its quantity: the restore query only joins reservations whose expiry
lies within the final minute before the sweep, so the quantity is lost. The
sweep that runs half a minute after the expiry does restore it, showing the
window is the only difference. -/
theorem c2_sweep_skips_old_expiries :
    limpiarReservasExpiradas c2Inv 720000 =
      { productos := [{ id := 1, stock_disponible := 8 }],
        reservas_temporales := [{ saga_id := "s1", producto_id := 1,
                                  cantidad_reservada := 2, expira_en := 600000,
                                  estado := ResEstado.EXPIRADA }] } ∧
    stockOf (limpiarReservasExpiradas c2Inv 720000) 1 = some 8 ∧
    stockOf (limpiarReservasExpiradas c2Inv 630000) 1 = some 10 ∧
    limpiarReservasExpiradas (limpiarReservasExpiradas c2Inv 720000) 1020000 =
      limpiarReservasExpiradas c2Inv 720000 := by
  decide

/-- Fresh inventory for the conservation run: product 1, initial stock 10. -/
def c3Inv0 : InvState :=
  { productos := [{ id := 1, stock_disponible := 10 }], reservas_temporales := [] }

/-- Inventory after reserving quantity 2 for saga s1 at time 0. -/
def c3Inv1 : InvState :=
  { productos := [{ id := 1, stock_disponible := 8 }],
    reservas_temporales := [{ saga_id := "s1", producto_id := 1,
                              cantidad_reservada := 2, expira_en := 600000,
                              estado := ResEstado.ACTIVA }] }

/-- C3: conservation holds after the reserve (8 + 2 = 10) but one sweep run
at time 720000, with no confirmed sale anywhere in between (the system has no
operation that confirms a sale against inventory), drops the sum to 8: the
invariant available stock plus ACTIVA quantities = initial stock minus net
confirmed sales is violated by the sweep of claim C2. -/
theorem c3_conservation_broken_by_sweep :
    reservarStock c3Inv0 "s1" 1 2 0 = Except.ok (true, c3Inv1) ∧
    conservationSum c3Inv0 1 = 10 ∧
    conservationSum c3Inv1 1 = 10 ∧
    conservationSum (limpiarReservasExpiradas c3Inv1 720000) 1 = 8 ∧
    conservationSum (limpiarReservasExpiradas c3Inv1 720000) 1 ≠ 10 := by
  refine ⟨rfl, by decide, by decide, by decide, by decide⟩

/-- The response the inventory catch emits when handling LIBERAR_INVENTARIO
raises: evento INVENTARIO_RESERVADO with success false. -/
def c10Resp : Response :=
  { sagaId := "s1", evento := "INVENTARIO_RESERVADO", success := false,
    payload := errPayload "db down", servicio := "inventario" }

/-- Orchestrator state of a saga already driven through compensation to
CANCELADA. -/
def c10Ctx : OrchCtx :=
  { pedidos := [{ id := "p1", saga_id := "s1", usuario_id := 1,
                  producto_id := 1, cantidad := 2,
                  estado := SagaState.CANCELADA }],
    saga_estados := [],
    outbox := [],
    trace := [("s1", SagaState.INICIADA), ("s1", SagaState.COMPENSANDO),
              ("s1", SagaState.CANCELADA)] }

/-- C10: when handling a LIBERAR_INVENTARIO compensation command raises, the
inventory catch answers with evento INVENTARIO_RESERVADO and success false;
the orchestrator routes that response into compensateSaga with reason
INVENTARIO_NO_DISPONIBLE, so the already cancelled saga re-enters
COMPENSANDO, re-emits COMPENSAR_PAGO and LIBERAR_INVENTARIO, and is written
CANCELADA again. -/
theorem c10_failed_release_retriggers_compensation :
    (procesarEventoInventario c2Inv
      { sagaId := "s1", evento := "LIBERAR_INVENTARIO",
        payload := razonPayload "PAGO_RECHAZADO" } 0 (some "db down")) =
      (c2Inv, [c10Resp]) ∧
    pedidoEstado c10Ctx "s1" = some SagaState.CANCELADA ∧
    (runResponse c10Resp c10Ctx).outbox =
      [{ sagaId := "s1", evento := "COMPENSAR_PAGO",
         payload := razonPayload "INVENTARIO_NO_DISPONIBLE" },
       { sagaId := "s1", evento := "LIBERAR_INVENTARIO",
         payload := razonPayload "INVENTARIO_NO_DISPONIBLE" }] ∧
    statusTrace (runResponse c10Resp c10Ctx) "s1" =
      [SagaState.INICIADA, SagaState.COMPENSANDO, SagaState.CANCELADA,
       SagaState.COMPENSANDO, SagaState.CANCELADA] := by
  decide

/-- A map whose function preserves the id column commutes with the lookup by
id, as the UPDATE of reservarStock does. -/
lemma find?_map_id_preserved (f : Producto → Producto)
    (hid : ∀ q, (f q).id = q.id) (l : List Producto) (pid : Int) :
    (l.map f).find? (fun q => decide (q.id = pid)) =
      (l.find? (fun q => decide (q.id = pid))).map f := by
  induction l with
  | nil => rfl
  | cons a l ih =>
    by_cases h : a.id = pid
    · simp [List.find?_cons, hid, h]
    · simp [List.find?_cons, hid, h, ih]

/-- The inventory state produced by a successful reservarStock: stock of the
product decremented by the quantity and one new ACTIVA reservation appended,
expiring ten minutes after now. -/
def reservaAplicada (inv : InvState) (sagaId : String)
    (productoId cantidad now : Int) : InvState :=
  { productos := inv.productos.map (fun q =>
      if q.id = productoId then
        { id := q.id, stock_disponible := q.stock_disponible - cantidad }
      else q),
    reservas_temporales := inv.reservas_temporales ++
      [{ saga_id := sagaId, producto_id := productoId,
         cantidad_reservada := cantidad, expira_en := now + holdWindowMs,
         estado := ResEstado.ACTIVA }] }

/-- C5: with the product row present, a request exceeding the available stock
returns false and leaves the whole inventory state unchanged; otherwise the
call returns true, the available stock of the product is decremented by
exactly the requested quantity and stays nonnegative, and a single ACTIVA
reservation expiring ten minutes from now is appended. -/
theorem c5_reservarStock_atomic (inv : InvState) (s : String)
    (pid cantidad now : Int) (p : Producto)
    (hp : findProducto inv pid = some p) :
    (p.stock_disponible < cantidad →
      reservarStock inv s pid cantidad now = Except.ok (false, inv)) ∧
    (cantidad ≤ p.stock_disponible →
      ∃ inv2,
        reservarStock inv s pid cantidad now = Except.ok (true, inv2) ∧
        stockOf inv2 pid = some (p.stock_disponible - cantidad) ∧
        0 ≤ p.stock_disponible - cantidad ∧
        inv2.reservas_temporales = inv.reservas_temporales ++
          [{ saga_id := s, producto_id := pid, cantidad_reservada := cantidad,
             expira_en := now + holdWindowMs, estado := ResEstado.ACTIVA }]) := by
  have hpid : p.id = pid := by
    have := List.find?_some hp
    simpa using this
  constructor
  · intro hlt
    simp [reservarStock, hp, hlt]
  · intro hle
    have hnlt : ¬ p.stock_disponible < cantidad := not_lt.mpr hle
    refine ⟨reservaAplicada inv s pid cantidad now, ?_, ?_, ?_, rfl⟩
    · simp [reservarStock, reservaAplicada, hp, hnlt]
    · have hfix : ∀ q : Producto,
          ((fun q : Producto => if q.id = pid then
              { id := q.id, stock_disponible := q.stock_disponible - cantidad }
            else q) q).id = q.id := by
        intro q
        by_cases hq : q.id = pid <;> simp [hq]
      unfold stockOf findProducto reservaAplicada
      rw [find?_map_id_preserved _ hfix]
      unfold findProducto at hp
      rw [hp]
      simp [hpid]
    · exact sub_nonneg.mpr hle

/-- C5 witness: the hypotheses hold at the concrete inventory with product 1
holding stock 10, requesting quantity 2. -/
theorem c5_witness :
    findProducto c3Inv0 1 = some { id := 1, stock_disponible := 10 } ∧
    (2 : Int) ≤ (10 : Int) ∧
    (∃ inv2,
      reservarStock c3Inv0 "s1" 1 2 0 = Except.ok (true, inv2) ∧
      stockOf inv2 1 = some (10 - 2) ∧
      (0 : Int) ≤ 10 - 2 ∧
      inv2.reservas_temporales = c3Inv0.reservas_temporales ++
        [{ saga_id := "s1", producto_id := 1, cantidad_reservada := 2,
           expira_en := 0 + holdWindowMs, estado := ResEstado.ACTIVA }]) :=
  ⟨by decide, by decide,
    (c5_reservarStock_atomic c3Inv0 "s1" 1 2 0
      { id := 1, stock_disponible := 10 } (by decide)).2 (by decide)⟩

/-- Releasing when no ACTIVA reservation of the saga exists is a no-op. -/
lemma liberarStock_no_active (inv : InvState) (s : String)
    (h : ∀ r ∈ inv.reservas_temporales,
      ¬(r.saga_id = s ∧ r.estado = ResEstado.ACTIVA)) :
    liberarStock inv s = inv := by
  unfold liberarStock
  have hn : inv.reservas_temporales.find?
      (fun r => decide (r.saga_id = s ∧ r.estado = ResEstado.ACTIVA)) = none := by
    rw [List.find?_eq_none]
    intro x hx
    simpa using h x hx
  rw [hn]

/-- After one release, the saga has no ACTIVA reservation left. -/
lemma liberarStock_clears_active (inv : InvState) (s : String) :
    ∀ r ∈ (liberarStock inv s).reservas_temporales,
      ¬(r.saga_id = s ∧ r.estado = ResEstado.ACTIVA) := by
  unfold liberarStock
  cases hfind : inv.reservas_temporales.find?
      (fun r => decide (r.saga_id = s ∧ r.estado = ResEstado.ACTIVA)) with
  | none =>
    intro x hx
    have := List.find?_eq_none.mp hfind x hx
    simpa using this
  | some reserva =>
    intro x hx
    simp only [List.mem_map] at hx
    obtain ⟨y, _, rfl⟩ := hx
    by_cases hy : y.saga_id = s <;> simp [hy]

/-- C6: releasing a saga with no ACTIVA reservation commits without mutating
anything, and a second release right after a first one is a no-op, so the
reserved quantity is restored at most once. -/
theorem c6_liberarStock_idempotent (inv : InvState) (s : String) :
    ((∀ r ∈ inv.reservas_temporales,
        ¬(r.saga_id = s ∧ r.estado = ResEstado.ACTIVA)) →
      liberarStock inv s = inv) ∧
    liberarStock (liberarStock inv s) s = liberarStock inv s :=
  ⟨liberarStock_no_active inv s,
    liberarStock_no_active (liberarStock inv s) s (liberarStock_clears_active inv s)⟩

/-- C6 witness: the no-reservation hypothesis holds at an inventory whose
only reservation is already LIBERADA. -/
theorem c6_witness :
    (∀ r ∈ ({ productos := [{ id := 1, stock_disponible := 10 }],
              reservas_temporales := [{ saga_id := "s1", producto_id := 1,
                                        cantidad_reservada := 2, expira_en := 600000,
                                        estado := ResEstado.LIBERADA }] } : InvState).reservas_temporales,
        ¬(r.saga_id = "s1" ∧ r.estado = ResEstado.ACTIVA)) ∧
    liberarStock { productos := [{ id := 1, stock_disponible := 10 }],
                   reservas_temporales := [{ saga_id := "s1", producto_id := 1,
                                             cantidad_reservada := 2, expira_en := 600000,
                                             estado := ResEstado.LIBERADA }] } "s1" =
      { productos := [{ id := 1, stock_disponible := 10 }],
        reservas_temporales := [{ saga_id := "s1", producto_id := 1,
                                  cantidad_reservada := 2, expira_en := 600000,
                                  estado := ResEstado.LIBERADA }] } :=
  ⟨by decide,
    (c6_liberarStock_idempotent _ "s1").1 (by decide)⟩

/-- C8 counterexample: a create-order request with no payment method at all
is accepted: the route answers 201 and starts the saga, publishing
RESERVAR_INVENTARIO with metodoPago absent, so the orchestrator does not
validate the presence of the required fields. -/
theorem c8_counterexample :
    (createPedido emptyCtx (some 1) (some 1) (some 2) none "p1" "s1").status = 201 ∧
    (createPedido emptyCtx (some 1) (some 1) (some 2) none "p1" "s1").ctx.outbox =
      [{ sagaId := "s1", evento := "RESERVAR_INVENTARIO",
         payload := { productoId := some 1, cantidad := some 2,
                      pedidoId := some "p1", metodoPago := none,
                      razon := none, errorMsg := none } }] := by
  decide

/-- C8 amended: the route performs no explicit validation. A request whose
principal id, product id or quantity is absent fails on the NOT NULL insert
with 500 and no mutation; any other request, payment method present or not,
creates the INICIADA order row, appends the CREAR_PEDIDO/COMPLETADO step,
publishes RESERVAR_INVENTARIO carrying productoId, cantidad, pedidoId and
metodoPago, and answers 201 with the order and saga ids. -/
theorem c8_createPedido_contract (c : OrchCtx) (uid pid cant : Option Int)
    (mp : Option String) (pedidoId sagaId : String) :
    ((uid = none ∨ pid = none ∨ cant = none) →
      createPedido c uid pid cant mp pedidoId sagaId =
        { status := 500, pedidoId := none, sagaId := none, ctx := c }) ∧
    (∀ u p q, uid = some u → pid = some p → cant = some q →
      createPedido c uid pid cant mp pedidoId sagaId =
        { status := 201, pedidoId := some pedidoId, sagaId := some sagaId,
          ctx :=
            { pedidos := c.pedidos ++
                [{ id := pedidoId, saga_id := sagaId, usuario_id := u,
                   producto_id := p, cantidad := q, estado := SagaState.INICIADA }],
              saga_estados := c.saga_estados ++
                [{ saga_id := sagaId, paso := "CREAR_PEDIDO", estado := "COMPLETADO" }],
              outbox := c.outbox ++
                [{ sagaId := sagaId, evento := "RESERVAR_INVENTARIO",
                   payload := { productoId := some p, cantidad := some q,
                                pedidoId := some pedidoId, metodoPago := mp,
                                razon := none, errorMsg := none } }],
              trace := c.trace ++ [(sagaId, SagaState.INICIADA)] } }) := by
  constructor
  · intro h
    rcases h with rfl | rfl | rfl
    · cases pid <;> cases cant <;> rfl
    · cases uid <;> cases cant <;> rfl
    · cases uid <;> cases pid <;> rfl
  · intro u p q hu hp hq
    subst hu; subst hp; subst hq
    rfl

/-- C8 witness: the contract applied to a concrete accepted request. -/
theorem c8_witness :
    createPedido emptyCtx (some 7) (some 1) (some 2) (some "pse") "p9" "s9" =
      { status := 201, pedidoId := some "p9", sagaId := some "s9",
        ctx :=
          { pedidos := emptyCtx.pedidos ++
              [{ id := "p9", saga_id := "s9", usuario_id := 7,
                 producto_id := 1, cantidad := 2, estado := SagaState.INICIADA }],
            saga_estados := emptyCtx.saga_estados ++
              [{ saga_id := "s9", paso := "CREAR_PEDIDO", estado := "COMPLETADO" }],
            outbox := emptyCtx.outbox ++
              [{ sagaId := "s9", evento := "RESERVAR_INVENTARIO",
                 payload := { productoId := some 1, cantidad := some 2,
                              pedidoId := some "p9", metodoPago := some "pse",
                              razon := none, errorMsg := none } }],
            trace := emptyCtx.trace ++ [("s9", SagaState.INICIADA)] } } :=
  (c8_createPedido_contract emptyCtx (some 7) (some 1) (some 2)
    (some "pse") "p9" "s9").2 7 1 2 rfl rfl rfl

/-- C9: procesarPago rejects an absent or unknown payment method with no
mutation of the transacciones table; with an allowed method it appends
exactly one row, whose status is APROBADA exactly when the simulated outcome
approves and RECHAZADA otherwise, and returns that outcome; and the
PROCESAR_PAGO consumer reports the returned outcome to the orchestrator as a
PAGO_PROCESADO response. -/
theorem c9_procesarPago_contract (pag : PagState) (s : String)
    (payload : Payload) (exitoso : Bool) (txId : String) :
    (payload.metodoPago = none →
      procesarPago pag s payload exitoso txId = (false, pag)) ∧
    (∀ m, payload.metodoPago = some m → metodosValidos.contains m = false →
      procesarPago pag s payload exitoso txId = (false, pag)) ∧
    (∀ m, payload.metodoPago = some m → metodosValidos.contains m = true →
      procesarPago pag s payload exitoso txId = (exitoso,
        { transacciones := pag.transacciones ++
            [{ transaction_id := txId, saga_id := s,
               monto := obtenerPrecioProducto (payload.productoId.getD 0) *
                 payload.cantidad.getD 0,
               metodo_pago := m,
               estado := if exitoso then TransEstado.APROBADA
                         else TransEstado.RECHAZADA }] }) ∧
      ((if exitoso then TransEstado.APROBADA else TransEstado.RECHAZADA) =
          TransEstado.APROBADA ∨
       (if exitoso then TransEstado.APROBADA else TransEstado.RECHAZADA) =
          TransEstado.RECHAZADA)) ∧
    (procesarEventoPago pag
        { sagaId := s, evento := "PROCESAR_PAGO", payload := payload } exitoso txId =
      ((procesarPago pag s payload exitoso txId).snd,
       [{ sagaId := s, evento := "PAGO_PROCESADO",
          success := (procesarPago pag s payload exitoso txId).fst,
          payload := payload, servicio := "pagos" }])) := by
  refine ⟨?_, ?_, ?_, ?_⟩
  · intro hmp
    simp [procesarPago, hmp]
  · intro m hmp hcont
    simp only [procesarPago, hmp]
    rw [hcont]
    simp
  · intro m hmp hcont
    constructor
    · simp only [procesarPago, hmp]
      rw [hcont]
      simp
    · cases exitoso <;> simp
  · rfl

/-- C9 witness: the contract applied with the allowed method pse and an
approving outcome. -/
theorem c9_witness :
    ({ transacciones := [] } : PagState) = { transacciones := [] } ∧
    procesarPago { transacciones := [] } "s1"
        { productoId := some 1, cantidad := some 2, pedidoId := some "p1",
          metodoPago := some "pse", razon := none, errorMsg := none } true "tx1" =
      (true,
        { transacciones := [] ++
            [{ transaction_id := "tx1", saga_id := "s1",
               monto := obtenerPrecioProducto ((some (1:Int)).getD 0) *
                 (some (2:Int)).getD 0,
               metodo_pago := "pse",
               estado := if true then TransEstado.APROBADA
                         else TransEstado.RECHAZADA }] }) :=
  ⟨rfl,
    ((c9_procesarPago_contract { transacciones := [] } "s1"
      { productoId := some 1, cantidad := some 2, pedidoId := some "p1",
        metodoPago := some "pse", razon := none, errorMsg := none }
      true "tx1").2.2.1 "pse" rfl (by decide)).1⟩

/-- Fault-free handling of one response appends to the ghost status trace
exactly the statuses of the routing switch for the saga of the response. -/
lemma runResponse_trace (ev : Response) (c : OrchCtx) :
    (runResponse ev c).trace =
      c.trace ++ (respDelta ev ev.sagaId).map (fun st => (ev.sagaId, st)) := by
  by_cases h1 : ev.evento = "INVENTARIO_RESERVADO"
  · cases hs : ev.success <;>
      simp [runResponse, processSagaResponse, sagaBody, compensateSaga,
        compensateOps, runOps, primOp, respDelta, h1, hs,
        insSagaEstado, setPedidoEstado, pushEvento]
  · by_cases h2 : ev.evento = "PAGO_PROCESADO"
    · cases hs : ev.success <;>
        simp [runResponse, processSagaResponse, sagaBody, compensateSaga,
          compensateOps, runOps, primOp, respDelta, h1, h2, hs,
          insSagaEstado, setPedidoEstado, pushEvento]
    · by_cases h3 : ev.evento = "PEDIDO_CONFIRMADO"
      · simp [runResponse, processSagaResponse, sagaBody, compensateSaga,
          compensateOps, runOps, primOp, respDelta, h1, h2, h3,
          insSagaEstado, setPedidoEstado, pushEvento]
      · simp [runResponse, processSagaResponse, sagaBody, respDelta, h1, h2, h3]

/-- The status trace of saga s grows by the routing-switch delta for s. -/
lemma runResponse_statusTrace (ev : Response) (c : OrchCtx) (s : String) :
    statusTrace (runResponse ev c) s = statusTrace c s ++ respDelta ev s := by
  unfold statusTrace
  rw [runResponse_trace, List.filterMap_append]
  congr 1
  by_cases hs : ev.sagaId = s
  · subst hs
    rw [List.filterMap_map]
    have hcomp : ((fun pr : String × SagaState =>
        if pr.1 = ev.sagaId then some pr.2 else none) ∘ fun st => (ev.sagaId, st)) =
          some := by
      funext st
      simp
    rw [hcomp, List.filterMap_some]
  · simp [respDelta, hs, List.filterMap_map, Function.comp]

/-- Orchestrator state right after an accepted create-order request for saga
s1: pedido row in INICIADA, CREAR_PEDIDO step, RESERVAR_INVENTARIO
published. -/
def c4Ctx : OrchCtx :=
  (createPedido emptyCtx (some 1) (some 1) (some 2)
    (some "tarjeta_credito") "p1" "s1").ctx

/-- Status trace of saga s1 after a full happy run followed by one
redelivered failing PAGO_PROCESADO response. -/
def c4DupTrace : List SagaState :=
  statusTrace
    (runResponses
      [respIR "s1" true emptyPayload "inventario",
       respPP "s1" true emptyPayload "pagos",
       respPC "s1" true emptyPayload "pedidos",
       respPP "s1" false emptyPayload "pagos"] c4Ctx) "s1"

/-- C4 counterexample: updatePedidoState applies any transition with no guard
on the current status, so a redelivered failing PAGO_PROCESADO after
completion drives the saga from COMPLETADA through COMPENSANDO to CANCELADA:
the written status sequence is not a prefix of either admissible path and
both terminal states are reached. -/
theorem c4_counterexample :
    c4DupTrace =
      [SagaState.INICIADA, SagaState.INVENTARIO_RESERVADO,
       SagaState.PAGO_PROCESADO, SagaState.COMPLETADA,
       SagaState.COMPENSANDO, SagaState.CANCELADA] ∧
    validStatusSeq c4DupTrace = false ∧
    SagaState.COMPLETADA ∈ c4DupTrace ∧
    SagaState.CANCELADA ∈ c4DupTrace := by
  decide

/-- C4 amended: monotonicity does hold for the delivery patterns the
fault-free protocol itself produces, namely at most one response per step in
causal order: an INVENTARIO_RESERVADO, then a PAGO_PROCESADO only after a
successful one, then a PEDIDO_CONFIRMADO only after both succeeded. Every
status sequence written under such a delivery is a prefix of one of the two
admissible paths. -/
theorem c4_monotone_causal_delivery (c0 : OrchCtx) (s : String)
    (l : List Response)
    (h0 : statusTrace c0 s = [SagaState.INICIADA])
    (hl : l = [] ∨
      (∃ b p v, l = [respIR s b p v]) ∨
      (∃ b p1 v1 p2 v2, l = [respIR s true p1 v1, respPP s b p2 v2]) ∨
      (∃ b p1 v1 p2 v2 p3 v3,
        l = [respIR s true p1 v1, respPP s true p2 v2, respPC s b p3 v3])) :
    validStatusSeq (statusTrace (runResponses l c0) s) = true := by
  rcases hl with rfl | ⟨b, p, v, rfl⟩ | ⟨b, p1, v1, p2, v2, rfl⟩ |
    ⟨b, p1, v1, p2, v2, p3, v3, rfl⟩
  · show validStatusSeq (statusTrace c0 s) = true
    rw [h0]
    decide
  · show validStatusSeq (statusTrace (runResponse (respIR s b p v) c0) s) = true
    rw [runResponse_statusTrace, h0]
    cases b <;> simp [respDelta, respIR, validStatusSeq, isPre,
      forwardPath, compPath1, compPath2, compPath3]
  · show validStatusSeq (statusTrace
      (runResponse (respPP s b p2 v2) (runResponse (respIR s true p1 v1) c0)) s) = true
    rw [runResponse_statusTrace, runResponse_statusTrace, h0]
    cases b <;> simp [respDelta, respIR, respPP, validStatusSeq, isPre,
      forwardPath, compPath1, compPath2, compPath3]
  · show validStatusSeq (statusTrace
      (runResponse (respPC s b p3 v3)
        (runResponse (respPP s true p2 v2)
          (runResponse (respIR s true p1 v1) c0))) s) = true
    rw [runResponse_statusTrace, runResponse_statusTrace,
      runResponse_statusTrace, h0]
    simp [respDelta, respIR, respPP, respPC, validStatusSeq, isPre,
      forwardPath, compPath1, compPath2, compPath3]

/-- C4 witness: the amended monotonicity applied to the concrete post-create
state and a single successful INVENTARIO_RESERVADO delivery. -/
theorem c4_witness :
    statusTrace c4Ctx "s1" = [SagaState.INICIADA] ∧
    validStatusSeq (statusTrace
      (runResponses [respIR "s1" true emptyPayload "inventario"] c4Ctx) "s1") = true :=
  ⟨by decide,
    c4_monotone_causal_delivery c4Ctx "s1" _ (by decide)
      (Or.inr (Or.inl ⟨true, emptyPayload, "inventario", rfl⟩))⟩

/-- Number of pending fault injections in a fault list. -/
def countT (l : List Bool) : Nat := l.count true

/-- A raised primitive consumes one pending fault. -/
lemma primOp_error_count (f : OrchCtx → OrchCtx) (st : FState) (c2 : OrchCtx)
    (fs2 : List Bool) (h : primOp f st = Except.error (c2, fs2)) :
    countT fs2 < countT st.2 := by
  unfold primOp at h
  cases hfs : st.2 with
  | nil => rw [hfs] at h; exact absurd h (by simp)
  | cons b rest =>
    rw [hfs] at h
    cases b with
    | false => exact absurd h (by simp)
    | true =>
      have h2 : rest = fs2 := congrArg Prod.snd (Except.error.inj h)
      rw [← h2]
      simp [countT, List.count_cons]

/-- A successful primitive never adds pending faults. -/
lemma primOp_ok_count (f : OrchCtx → OrchCtx) (st : FState) (c2 : OrchCtx)
    (fs2 : List Bool) (h : primOp f st = Except.ok (c2, fs2)) :
    countT fs2 ≤ countT st.2 := by
  unfold primOp at h
  cases hfs : st.2 with
  | nil =>
    rw [hfs] at h
    have h2 : ([] : List Bool) = fs2 := congrArg Prod.snd (Except.ok.inj h)
    rw [← h2]
  | cons b rest =>
    rw [hfs] at h
    cases b with
    | true => exact absurd h (by simp)
    | false =>
      have h2 : rest = fs2 := congrArg Prod.snd (Except.ok.inj h)
      rw [← h2]
      simp [countT, List.count_cons]

/-- A raised statement sequence consumes at least one pending fault. -/
lemma runOps_error_count (ops : List (OrchCtx → OrchCtx)) :
    ∀ st c2 fs2, runOps ops st = Except.error (c2, fs2) →
      countT fs2 < countT st.2 := by
  induction ops with
  | nil =>
    intro st c2 fs2 h
    exact absurd h (by simp [runOps])
  | cons f rest ih =>
    intro st c2 fs2 h
    unfold runOps at h
    cases hp : primOp f st with
    | error e =>
      rw [hp] at h
      simp at h
      subst h
      exact primOp_error_count f st c2 fs2 hp
    | ok st1 =>
      rw [hp] at h
      simp at h
      obtain ⟨c1, fs1⟩ := st1
      exact lt_of_lt_of_le (ih (c1, fs1) c2 fs2 h)
        (primOp_ok_count f st c1 fs1 hp)

/-- With no pending fault, a statement sequence completes. -/
lemma runOps_no_fault (ops : List (OrchCtx → OrchCtx)) :
    ∀ c fs, countT fs = 0 → isOkE (runOps ops (c, fs)) = true := by
  induction ops with
  | nil => intro c fs _; rfl
  | cons f rest ih =>
    intro c fs h0
    cases fs with
    | nil => exact ih (f c) [] h0
    | cons b rest2 =>
      cases b with
      | true => simp [countT, List.count_cons] at h0
      | false =>
        have h2 : countT rest2 = 0 := by
          simpa [countT, List.count_cons] using h0
        show isOkE (runOps (f :: rest) (c, false :: rest2)) = true
        unfold runOps primOp
        simp
        exact ih (f c) rest2 h2

/-- A raised switch body consumes at least one pending fault. -/
lemma sagaBody_error_count (ev : Response) (st : FState) (c2 : OrchCtx)
    (fs2 : List Bool) (h : sagaBody ev st = Except.error (c2, fs2)) :
    countT fs2 < countT st.2 := by
  unfold sagaBody compensateSaga at h
  split_ifs at h
  all_goals exact runOps_error_count _ st c2 fs2 h

/-- The composed state mutation of one full compensateSaga run. -/
def compensateApply (sagaId razon : String) (c : OrchCtx) : OrchCtx :=
  (compensateOps sagaId razon).foldl (fun c f => f c) c

/-- With no pending fault, compensateSaga completes in one pass. -/
lemma compensateSaga_no_fault (sagaId razon : String) (c : OrchCtx) :
    compensateSaga sagaId razon (c, []) =
      Except.ok (compensateApply sagaId razon c, []) := rfl

/-- C7 amended: a handler invocation in which at most one primitive raises
never propagates an exception: the catch converts the body fault into the
ERROR_INTERNO compensation. In particular, when the single fault hits the
first statement of handling a routed response, the handler ends with the
full compensation applied: COMPENSANDO and CANCELADA written, COMPENSAR_PAGO
and LIBERAR_INVENTARIO emitted with reason ERROR_INTERNO, and the
COMPENSACION step logged. The restriction to at most one fault is necessary:
a second fault during the catch-branch compensation itself propagates, as
the counterexample shows. -/
theorem c7_internal_fault_contained (ev : Response) (c : OrchCtx)
    (fs : List Bool) (h : countT fs ≤ 1) :
    isOkE (processSagaResponse ev (c, fs)) = true ∧
    (fs = [true] →
      (ev.evento = "INVENTARIO_RESERVADO" ∨ ev.evento = "PAGO_PROCESADO" ∨
        ev.evento = "PEDIDO_CONFIRMADO") →
      processSagaResponse ev (c, fs) =
        Except.ok (compensateApply ev.sagaId "ERROR_INTERNO" c, [])) := by
  constructor
  · cases hb : sagaBody ev (c, fs) with
    | ok st1 => simp [processSagaResponse, hb, isOkE]
    | error st1 =>
      obtain ⟨c1, fs1⟩ := st1
      have hlt : countT fs1 < countT fs := sagaBody_error_count ev (c, fs) c1 fs1 hb
      have h0 : countT fs1 = 0 := by omega
      simp only [processSagaResponse, hb]
      exact runOps_no_fault _ c1 fs1 h0
  · intro hfs hev
    subst hfs
    have hbody : sagaBody ev (c, [true]) = Except.error (c, []) := by
      rcases hev with h1 | h1 | h1 <;>
        · cases hs : ev.success <;>
            simp [sagaBody, compensateSaga, compensateOps, runOps, primOp, h1, hs]
    simp only [processSagaResponse, hbody]
    exact compensateSaga_no_fault ev.sagaId "ERROR_INTERNO" c

/-- Orchestrator state of a freshly created saga s1 used by the C7
counterexample. -/
def c7Ctx : OrchCtx :=
  (createPedido emptyCtx (some 1) (some 1) (some 2)
    (some "tarjeta_credito") "p7" "s1").ctx

/-- C7 counterexample: when the first statement of the body raises and the
first statement of the catch-branch compensation raises as well, the handler
propagates the exception (Except.error): no compensating or terminal
transition is written and the saga stays INICIADA, contradicting the claim
that an exception never propagates out of the handler. -/
theorem c7_counterexample :
    processSagaResponse (respIR "s1" true emptyPayload "inventario")
        (c7Ctx, [true, true]) = Except.error (c7Ctx, []) ∧
    isOkE (processSagaResponse (respIR "s1" true emptyPayload "inventario")
        (c7Ctx, [true, true])) = false ∧
    statusTrace (stateOfE (processSagaResponse
        (respIR "s1" true emptyPayload "inventario") (c7Ctx, [true, true]))) "s1" =
      [SagaState.INICIADA] :=
  ⟨rfl, rfl, by decide⟩

/-- C7 witness: the containment theorem applied to a concrete single-fault
invocation. -/
theorem c7_witness :
    countT [true] ≤ 1 ∧
    isOkE (processSagaResponse (respIR "s1" true emptyPayload "inventario")
      (c7Ctx, [true])) = true :=
  ⟨by decide,
    (c7_internal_fault_contained (respIR "s1" true emptyPayload "inventario")
      c7Ctx [true] (by decide)).1⟩

end Tuso
